import Mathlib

/-!
Shallow embedding of `src/src/calibrator/Evdev.cpp` (xinput_calibrator,
evdev backend).  The X11 side (atom interning, device property reads,
device list) is modelled as an explicit environment; each C++ routine
becomes a pure Lean function returning its result together with a trace
of the externally visible X calls it performs.
-/

/-- One axis of the calibration record (`min`/`max` bounds).
Modelled from the spec: the `XYinfo` header is not in `src/`;
fields follow the accesses in `Evdev.cpp` (`x.min`, `x.max`, ...). -/
structure AxisInfo where
  min : Int
  max : Int
deriving Repr, DecidableEq

/-- The calibration record `XYinfo`: two axis ranges plus the swap flag.
Modelled from the spec (header not in `src/`); matches every field access
in `Evdev.cpp`. -/
structure XYinfo where
  x : AxisInfo
  y : AxisInfo
  swap_xy : Bool
deriving Repr, DecidableEq

/-- C++ implicit `bool` to `int` conversion. -/
def boolToI (b : Bool) : Int :=
  if b then 1 else 0

/-- Model of the X server as seen by the property-writing code:
`internAtom` is `XInternAtom` (0 stands for `None`, which the code
explicitly checks for), `probeFormat` is the zero-length
`XGetDeviceProperty` probe used when `format == 0` (`none` = the probe
call did not return `Success`; `some f` = it returned format `f`). -/
structure XEnv where
  internAtom : String → Nat
  probeFormat : Nat → Option Nat

/-- The all-digits scan in `xinput_parse_atom` / `xinput_find_device_info`
(`for i: if (!isdigit(name[i])) ...`).  True on the empty string, as in C. -/
def allDigits (s : String) : Bool :=
  s.data.all Char.isDigit

/-- C `atoi` on a string of decimal digits (the only way the code calls it:
both call sites run it after the all-digits scan succeeded). -/
def atoi (s : String) : Nat :=
  s.data.foldl (fun a c => a * 10 + (c.toNat - 48)) 0

/-- Model of `CalibratorEvdev::xinput_parse_atom`: an all-digit name is used as a
numeric atom directly, any other name is interned. -/
def xinput_parse_atom (env : XEnv) (name : String) : Nat :=
  if allDigits name then atoi name else env.internAtom name

/-- One store performed by the fill loop of `xinput_do_set_int_prop`:
`byte i v` is `data.c[i] = argv[i]`, `short i v` is `data.s[i] = argv[i]`,
`long i v` is `data.l[i] = argv[i]`. -/
inductive StoreOp where
  | byte (i : Nat) (v : Int)
  | short (i : Nat) (v : Int)
  | long (i : Nat) (v : Int)
deriving Repr, DecidableEq

/-- The stores the fill loop performs, in program order, for a given
`format` and argument list; `none` is the `default:` branch (`return
false`).  NOTE the `case 8:` arm of the C `switch` has no `break`, so for
format 8 every element performs the byte store AND falls through into the
16-bit store. -/
def fillStores (format : Nat) (argv : List Int) : Option (List StoreOp) :=
  if format = 8 then
    some (argv.enum.foldr (fun iv acc => StoreOp.byte iv.1 iv.2 :: StoreOp.short iv.1 iv.2 :: acc) [])
  else if format = 16 then
    some (argv.enum.map (fun iv => StoreOp.short iv.1 iv.2))
  else if format = 32 then
    some (argv.enum.map (fun iv => StoreOp.long iv.1 iv.2))
  else
    none

/-- Write the `nbytes` little-endian bytes of `v` at offset `base` of a
byte buffer (little-endian host, `sizeof(long) == 8`, as on the platforms
the code targets). -/
def setLE (buf : Nat → Nat) (base : Nat) (nbytes : Nat) (v : Nat) : Nat → Nat :=
  fun j => if base ≤ j ∧ j < base + nbytes then (v >>> (8 * (j - base))) % 256 else buf j

/-- Effect of one store on the byte buffer: `data.c[i]` touches byte `i`,
`data.s[i]` bytes `2i, 2i+1`, `data.l[i]` bytes `8i .. 8i+7`; each value
is truncated to the store width first (C integer conversion). -/
def applyStore (buf : Nat → Nat) : StoreOp → (Nat → Nat)
  | StoreOp.byte i v => setLE buf i 1 (v % 256).toNat
  | StoreOp.short i v => setLE buf (2 * i) 2 (v % 65536).toNat
  | StoreOp.long i v => setLE buf (8 * i) 8 (v % 18446744073709551616).toNat

/-- The buffer returned by `calloc(argc, sizeof(long))`: all zero. -/
def zeroBuf : Nat → Nat :=
  fun _ => 0

/-- Externally visible X calls made by the calibration code.
`setIntPropCall` records entry into `xinput_do_set_int_prop` (one per
sub-step attempt), `changeProp` the resulting `XChangeDeviceProperty`
(atom, format, nitems, transferred bytes), `sync` is `XSync`,
`artifact` records one persistence-output block with the data fields it
embeds (kind, MatchProduct / device name, the four calibration integers,
the swap flag). -/
inductive XEvent where
  | setIntPropCall (name : String) (format : Nat) (values : List Int)
  | changeProp (prop : Nat) (format : Nat) (nitems : Nat) (bytes : List Nat)
  | sync
  | artifact (kind : String) (matchName : String) (xmin xmax ymin ymax : Int) (swap : Bool)
deriving Repr, DecidableEq

/-- Model of `CalibratorEvdev::xinput_do_set_int_prop`: checks `argc >= 1`,
resolves the property atom (fails on `None`), resolves `format == 0`
through a probe read, fills the buffer via `fillStores`/`applyStore`
(failing on an unexpected format), then issues `XChangeDeviceProperty`
and returns true. -/
def xinput_do_set_int_prop (env : XEnv) (name : String) (format : Nat)
    (argv : List Int) : List XEvent × Bool :=
  let callEv := XEvent.setIntPropCall name format argv
  if argv.length < 1 then ([callEv], false)
  else
    let prop := xinput_parse_atom env name
    if prop = 0 then ([callEv], false)
    else
      match (if format = 0 then env.probeFormat prop else some format) with
      | none => ([callEv], false)
      | some fmt =>
        match fillStores fmt argv with
        | none => ([callEv], false)
        | some stores =>
          let buf := stores.foldl applyStore zeroBuf
          let bytes := (List.range (argv.length * (fmt / 8))).map buf
          ([callEv, XEvent.changeProp prop fmt argv.length bytes], true)

/-- Model of `CalibratorEvdev::set_swapxy`: one 8-bit element on
"Evdev Axes Swap". -/
def set_swapxy (env : XEnv) (swap_xy : Int) : List XEvent × Bool :=
  xinput_do_set_int_prop env ("Evdev Axes Swap") 8 [swap_xy]

/-- Model of `CalibratorEvdev::set_invert_xy`: two 8-bit elements on
"Evdev Axis Inversion". -/
def set_invert_xy (env : XEnv) (invert_x invert_y : Int) : List XEvent × Bool :=
  xinput_do_set_int_prop env ("Evdev Axis Inversion") 8 [invert_x, invert_y]

/-- Model of `CalibratorEvdev::set_calibration`: four 32-bit elements on
"Evdev Axis Calibration", in the order x.min, x.max, y.min, y.max. -/
def set_calibration (env : XEnv) (new_axys : XYinfo) : List XEvent × Bool :=
  xinput_do_set_int_prop env ("Evdev Axis Calibration") 32
    [new_axys.x.min, new_axys.x.max, new_axys.y.min, new_axys.y.max]

/-- Model of `CalibratorEvdev::apply`: conditionally writes the swap property,
always calls `set_invert_xy(false, false)` DISCARDING its result (the
source has no `success &=` on that line), always writes the calibration
property, then `XSync`.  Returns the accumulated flag. -/
def apply (env : XEnv) (old_axys new_axys : XYinfo) : List XEvent × Bool :=
  let r1 := if old_axys.swap_xy != new_axys.swap_xy
            then set_swapxy env (boolToI new_axys.swap_xy)
            else (([] : List XEvent), true)
  let r2 := set_invert_xy env 0 0
  let r3 := set_calibration env new_axys
  (r1.1 ++ r2.1 ++ r3.1 ++ [XEvent.sync], r1.2 && r3.2)

/-- The X11 `XA_INTEGER` predefined atom. -/
def XA_INTEGER : Nat := 19

/-- A successful `XGetDeviceProperty` result as the code consumes it:
`format` is `act_format`, `typ` is `act_type`, `nitems` the item count,
`items` the returned data as the integers the pointer casts in
`detect_axys` read off it. -/
structure PropReadData where
  format : Nat
  typ : Nat
  nitems : Nat
  items : List Int
deriving Repr, DecidableEq

/-- The three `XGetDeviceProperty` outcomes `detect_axys` performs, in
order: axis calibration, axes swap, axis inversion.  `none` = the call
did not return `Success`. -/
structure DetectReads where
  calib : Option PropReadData
  swap : Option PropReadData
  inv : Option PropReadData

/-- First block of `detect_axys` ("Evdev Axis Calibration"): on a
32-bit-integer read with zero items, re-assert the held value with one
`set_calibration(old_axys)` call (result cast to void); with items,
decode four longs in order into x.min, x.max, y.min, y.max. -/
def detectCalibStep (env : XEnv) (r? : Option PropReadData) (old_axys : XYinfo) :
    XYinfo × List XEvent :=
  match r? with
  | none => (old_axys, [])
  | some r =>
    if r.format = 32 ∧ r.typ = XA_INTEGER then
      if r.nitems = 0 then
        (old_axys, (set_calibration env old_axys).1)
      else
        ({ old_axys with
            x := ⟨r.items.getD 0 0, r.items.getD 1 0⟩,
            y := ⟨r.items.getD 2 0, r.items.getD 3 0⟩ }, [])
    else (old_axys, [])

/-- Second block of `detect_axys` ("Evdev Axes Swap"): consulted only on
an 8-bit-integer read with exactly one item; assigns the (char) item to
the bool `swap_xy`. -/
def detectSwapStep (r? : Option PropReadData) (old_axys : XYinfo) : XYinfo :=
  match r? with
  | none => old_axys
  | some r =>
    if r.format = 8 ∧ r.typ = XA_INTEGER ∧ r.nitems = 1 then
      { old_axys with swap_xy := r.items.getD 0 0 != 0 }
    else old_axys

/-- Third block of `detect_axys` ("Evdev Axis Inversion"): consulted only
on an 8-bit-integer read with exactly two items `(invert_x, invert_y)`;
each true flag swaps that axis's min and max in place. -/
def detectInvStep (r? : Option PropReadData) (old_axys : XYinfo) : XYinfo :=
  match r? with
  | none => old_axys
  | some r =>
    if r.format = 8 ∧ r.typ = XA_INTEGER ∧ r.nitems = 2 then
      let invert_x := r.items.getD 0 0 != 0
      let invert_y := r.items.getD 1 0 != 0
      let a1 := if invert_x then { old_axys with x := ⟨old_axys.x.max, old_axys.x.min⟩ } else old_axys
      if invert_y then { a1 with y := ⟨a1.y.max, a1.y.min⟩ } else a1
    else old_axys

/-- Model of `CalibratorEvdev::detect_axys`: the three property reads in fixed
order, then `orig_axys = old_axys`.  Returns (final `old_axys`, final
`orig_axys`, trace of X calls performed). -/
def detect_axys (env : XEnv) (rs : DetectReads) (old_axys : XYinfo) :
    XYinfo × XYinfo × List XEvent :=
  let s1 := detectCalibStep env rs.calib old_axys
  let s2 := detectSwapStep rs.swap s1.1
  let s3 := detectInvStep rs.inv s2
  (s3, s3, s1.2)

/-- One entry of the `XListInputDevices` result, with the fields
`xinput_find_device_info` reads (`id`, `name`, `use`). -/
structure XDeviceInfoRec where
  id : Nat
  name : String
  use : Nat
deriving Repr, DecidableEq

/-- The XInput `IsXExtensionDevice` constant. -/
def IsXExtensionDevice : Nat := 2

/-- Outcome of `xinput_find_device_info`.  In the source, `ambiguous`
(a second match found) prints the multiple-devices warning and returns
NULL early; `notFound` returns NULL after the whole scan — observably
distinct outcomes that both yield no device. -/
inductive FindResult where
  | found (d : XDeviceInfoRec)
  | ambiguous
  | notFound
deriving Repr, DecidableEq

/-- Map a device transformation over a `found` result. -/
def FindResult.mapDev (f : XDeviceInfoRec → XDeviceInfoRec) : FindResult → FindResult
  | FindResult.found d => FindResult.found (f d)
  | FindResult.ambiguous => FindResult.ambiguous
  | FindResult.notFound => FindResult.notFound

/-- The per-device match condition of the scan loop in
`xinput_find_device_info`. -/
def deviceMatches (only_extended : Bool) (is_id : Bool) (id : Nat) (name : String)
    (d : XDeviceInfoRec) : Bool :=
  (!only_extended || decide (IsXExtensionDevice ≤ d.use)) &&
    ((!is_id && d.name == name) || (is_id && d.id == id))

/-- The scan loop of `xinput_find_device_info`: remembers the first match
in `found`; a second match returns NULL early (with the warning), i.e.
`ambiguous`. -/
def findLoop (p : XDeviceInfoRec → Bool) : List XDeviceInfoRec → Option XDeviceInfoRec → FindResult
  | [], none => FindResult.notFound
  | [], some d => FindResult.found d
  | d :: rest, acc =>
    if p d then
      match acc with
      | some _ => FindResult.ambiguous
      | none => findLoop p rest (some d)
    else findLoop p rest acc

/-- Model of `CalibratorEvdev::xinput_find_device_info`: all-digit names are
parsed with `atoi` and matched by id, any other name by exact `strcmp`
equality; `(XID)-1` is the initial id value, left in place when the name
is not numeric. -/
def xinput_find_device_info (devices : List XDeviceInfoRec) (name : String)
    (only_extended : Bool) : FindResult :=
  let is_id := allDigits name
  let id := if is_id then atoi name else 18446744073709551615
  findLoop (deviceMatches only_extended is_id id name) devices none

/-- Resource-level events of the `CalibratorEvdev` constructor. -/
inductive CtorEvent where
  | openDisplay
  | closeDisplay
  | openDevice
  | closeDevice
  | throwErr (msg : String)
deriving Repr, DecidableEq

/-- Environment of the constructor: whether `XOpenDisplay` succeeds, the
`XListInputDevices` result, whether `XOpenDevice` succeeds, and whether
the "Evdev Axis Calibration" `XGetDeviceProperty` validation read
returns `Success`. -/
structure CtorEnv where
  displayOpens : Bool
  devices : List XDeviceInfoRec
  deviceOpens : Bool
  calibPropReads : Bool

/-- The `CalibratorEvdev` constructor (HAVE_XI_PROP build): open the
display; resolve the device when `device_id == (XID)-1` (closing the
display and throwing when it cannot be found); open the device (closing
the display and throwing on failure); validate the "Evdev Axis
Calibration" property (closing the device, then the display, then
throwing when it is missing).  Returns the event trace and whether
construction succeeded. -/
def ctorEvdev (env : CtorEnv) (device_name : String) (device_id : Option Nat) :
    List CtorEvent × Bool :=
  if !env.displayOpens then
    ([CtorEvent.throwErr ("Evdev: Unable to connect to X server")], false)
  else
    let resolved : Option Nat :=
      match device_id with
      | some i => some i
      | none =>
        match xinput_find_device_info env.devices device_name false with
        | FindResult.found d => some d.id
        | _ => none
    match resolved with
    | none =>
      ([CtorEvent.openDisplay, CtorEvent.closeDisplay,
        CtorEvent.throwErr ("Evdev: Unable to find device")], false)
    | some _ =>
      if !env.deviceOpens then
        ([CtorEvent.openDisplay, CtorEvent.closeDisplay,
          CtorEvent.throwErr ("Evdev: Unable to open device")], false)
      else if !env.calibPropReads then
        ([CtorEvent.openDisplay, CtorEvent.openDevice, CtorEvent.closeDevice,
          CtorEvent.closeDisplay,
          CtorEvent.throwErr ("Evdev: \"Evdev Axis Calibration\" property missing, not a (valid) evdev device")], false)
      else
        ([CtorEvent.openDisplay, CtorEvent.openDevice], true)

/-- The `OutputType` enum (header not in `src/`; the four values are the
ones the `finish_data` switch names; `invalid` models any other value,
which the switch's `default:` branch rejects). -/
inductive OutputType where
  | auto
  | xorgconfd
  | hal
  | xinput
  | invalid
deriving Repr, DecidableEq

/-- Environment of `finish_data`'s persistence step.
Modelled from the spec: `has_xorgconfd_support` and `get_sysfs_name` live
in the base `Calibrator` class, not in `src/`; here they are opaque
environment facts (`sysfsName = none` models a NULL sysfs name). -/
structure FinishEnv where
  hasXorgconfdSupport : Bool
  sysfsName : Option String
deriving Repr, DecidableEq

/-- The placeholder substituted when `get_sysfs_name()` returns NULL. -/
def placeholderName : String := "!!Name_Of_TouchScreen!!"

/-- Model of `CalibratorEvdev::output_xorgconfd`: prints the xorg.conf.d snippet
(placeholder device name when sysfs name is unavailable) and returns
true. -/
def output_xorgconfd (fe : FinishEnv) (new_axys : XYinfo) : List XEvent × Bool :=
  let sysfs_name := fe.sysfsName.getD placeholderName
  ([XEvent.artifact ("xorg.conf.d") sysfs_name new_axys.x.min new_axys.x.max
      new_axys.y.min new_axys.y.max new_axys.swap_xy], true)

/-- Model of `CalibratorEvdev::output_hal`: prints the HAL policy snippet
(placeholder device name when sysfs name is unavailable) and returns
true. -/
def output_hal (fe : FinishEnv) (new_axys : XYinfo) : List XEvent × Bool :=
  let sysfs_name := fe.sysfsName.getD placeholderName
  ([XEvent.artifact ("hal") sysfs_name new_axys.x.min new_axys.x.max
      new_axys.y.min new_axys.y.max new_axys.swap_xy], true)

/-- Model of `CalibratorEvdev::output_xinput`: prints the xinput command script
(keyed by the device name) and returns true. -/
def output_xinput (device_name : String) (new_axys : XYinfo) : List XEvent × Bool :=
  ([XEvent.artifact ("xinput") device_name new_axys.x.min new_axys.x.max
      new_axys.y.min new_axys.y.max new_axys.swap_xy], true)

/-- The `switch (output_type)` body of `finish_data`: exactly one output
routine for a valid type (AUTO prefers xorg.conf.d when supported, else
xinput); the `default:` branch produces nothing and fails. -/
def persistStep (fe : FinishEnv) (output_type : OutputType) (device_name : String)
    (new_axys : XYinfo) : List XEvent × Bool :=
  match output_type with
  | OutputType.auto =>
    if fe.hasXorgconfdSupport then output_xorgconfd fe new_axys
    else output_xinput device_name new_axys
  | OutputType.xorgconfd => output_xorgconfd fe new_axys
  | OutputType.hal => output_hal fe new_axys
  | OutputType.xinput => output_xinput device_name new_axys
  | OutputType.invalid => ([], false)

/-- Model of `CalibratorEvdev::finish_data`: `success &= apply(new_axys)`, then
the output switch; on a valid output type `success &=` the selected
output routine's result, on the `default:` branch `success = false`. -/
def finish_data (env : XEnv) (fe : FinishEnv) (output_type : OutputType)
    (device_name : String) (old_axys new_axys : XYinfo) : List XEvent × Bool :=
  let ra := apply env old_axys new_axys
  let rp := persistStep fe output_type device_name new_axys
  match output_type with
  | OutputType.invalid => (ra.1 ++ rp.1, false)
  | _ => (ra.1 ++ rp.1, ra.2 && rp.2)

/-- Recognizes an entry into `xinput_do_set_int_prop` (a write attempt). -/
def isSetCall : XEvent → Bool
  | XEvent.setIntPropCall _ _ _ => true
  | _ => false

/-- Recognizes a write attempt on the property named `nm`. -/
def isCallTo (nm : String) : XEvent → Bool
  | XEvent.setIntPropCall n _ _ => n == nm
  | _ => false

/-- Recognizes a persistence-output block. -/
def isArtifact : XEvent → Bool
  | XEvent.artifact _ _ _ _ _ _ _ => true
  | _ => false

/-- True unless the event is an artifact whose embedded data fields
differ from the given calibration value. -/
def artifactValsOk (v : XYinfo) : XEvent → Bool
  | XEvent.artifact _ _ a b c d s =>
    (a == v.x.min) && (b == v.x.max) && (c == v.y.min) && (d == v.y.max) && (s == v.swap_xy)
  | _ => true

lemma doSet_filter (q : XEvent → Bool)
    (hq : ∀ p f n b, q (XEvent.changeProp p f n b) = false)
    (env : XEnv) (name : String) (format : Nat) (argv : List Int) :
    ((xinput_do_set_int_prop env name format argv).1).filter q =
      if q (XEvent.setIntPropCall name format argv)
      then [XEvent.setIntPropCall name format argv] else [] := by
  unfold xinput_do_set_int_prop
  by_cases h1 : argv.length < 1
  · simp [h1, List.filter_cons]
  · by_cases h2 : xinput_parse_atom env name = 0
    · simp [h1, h2, List.filter_cons]
    · cases hp : (if format = 0 then env.probeFormat (xinput_parse_atom env name) else some format) with
      | none => simp [h1, h2, hp, List.filter_cons]
      | some fmt =>
        cases hf : fillStores fmt argv with
        | none => simp [h1, h2, hp, hf, List.filter_cons]
        | some stores => simp [h1, h2, hp, hf, List.filter_cons, hq]

lemma doSet_filter_isSetCall (env : XEnv) (name : String) (format : Nat) (argv : List Int) :
    ((xinput_do_set_int_prop env name format argv).1).filter isSetCall =
      [XEvent.setIntPropCall name format argv] := by
  rw [doSet_filter isSetCall (fun _ _ _ _ => rfl)]
  rfl

lemma doSet_filter_isCallTo (nm : String) (env : XEnv) (name : String) (format : Nat)
    (argv : List Int) :
    ((xinput_do_set_int_prop env name format argv).1).filter (isCallTo nm) =
      if name == nm then [XEvent.setIntPropCall name format argv] else [] := by
  rw [doSet_filter (isCallTo nm) (fun _ _ _ _ => rfl)]
  rfl

lemma apply_filter (q : XEvent → Bool)
    (hsync : q XEvent.sync = false)
    (env : XEnv) (old_axys new_axys : XYinfo) :
    ((apply env old_axys new_axys).1).filter q =
      (if old_axys.swap_xy != new_axys.swap_xy
       then ((set_swapxy env (boolToI new_axys.swap_xy)).1).filter q else []) ++
      ((set_invert_xy env 0 0).1).filter q ++
      ((set_calibration env new_axys).1).filter q := by
  unfold apply
  cases h : old_axys.swap_xy != new_axys.swap_xy <;>
    simp [h, List.filter_append, List.filter_cons, hsync]

lemma getLast_append_singleton {α : Type} (l : List α) (a : α) :
    (l ++ [a]).getLast? = some a := by
  induction l with
  | nil => rfl
  | cons x xs ih =>
    rw [List.cons_append, List.getLast?_cons, ih]
    simp

lemma apply_getLast_sync (env : XEnv) (old_axys new_axys : XYinfo) :
    ((apply env old_axys new_axys).1).getLast? = some XEvent.sync := by
  unfold apply
  exact getLast_append_singleton _ _

lemma apply_filter_setCalls (env : XEnv) (old_axys new_axys : XYinfo) :
    ((apply env old_axys new_axys).1).filter isSetCall =
      (if old_axys.swap_xy != new_axys.swap_xy
       then [XEvent.setIntPropCall ("Evdev Axes Swap") 8 [boolToI new_axys.swap_xy]]
       else []) ++
      [XEvent.setIntPropCall ("Evdev Axis Inversion") 8 [0, 0],
       XEvent.setIntPropCall ("Evdev Axis Calibration") 32
         [new_axys.x.min, new_axys.x.max, new_axys.y.min, new_axys.y.max]] := by
  rw [apply_filter isSetCall rfl]
  unfold set_swapxy set_invert_xy set_calibration
  rw [doSet_filter_isSetCall, doSet_filter_isSetCall, doSet_filter_isSetCall]
  cases h : old_axys.swap_xy != new_axys.swap_xy <;> simp [h]

/-- C1 (amended): for every environment and `(original, target)` pair,
`apply` attempts the inversion write and the calibration write even when
an earlier sub-step failed, but the boolean it returns is the AND of the
conditional swap-property write's success and the axis-calibration
write's success only: the inversion-property write's result is
discarded (the source line `set_invert_xy(false, false);` has no
`success &=`). -/
theorem c1_apply_success_amended (env : XEnv) (old_axys new_axys : XYinfo) :
    (apply env old_axys new_axys).2 =
      ((if old_axys.swap_xy != new_axys.swap_xy
        then (set_swapxy env (boolToI new_axys.swap_xy)).2 else true) &&
       (set_calibration env new_axys).2) ∧
    XEvent.setIntPropCall ("Evdev Axis Inversion") 8 [0, 0] ∈
      (apply env old_axys new_axys).1 ∧
    XEvent.setIntPropCall ("Evdev Axis Calibration") 32
        [new_axys.x.min, new_axys.x.max, new_axys.y.min, new_axys.y.max] ∈
      (apply env old_axys new_axys).1 := by
  refine ⟨?_, ?_, ?_⟩
  · unfold apply
    cases h : old_axys.swap_xy != new_axys.swap_xy <;> simp [h]
  · have h := apply_filter_setCalls env old_axys new_axys
    have : XEvent.setIntPropCall ("Evdev Axis Inversion") 8 [0, 0] ∈
        ((apply env old_axys new_axys).1).filter isSetCall := by
      rw [h]; simp
    exact List.mem_of_mem_filter this
  · have h := apply_filter_setCalls env old_axys new_axys
    have : XEvent.setIntPropCall ("Evdev Axis Calibration") 32
        [new_axys.x.min, new_axys.x.max, new_axys.y.min, new_axys.y.max] ∈
        ((apply env old_axys new_axys).1).filter isSetCall := by
      rw [h]; simp
    exact List.mem_of_mem_filter this

/-- Environment in which the "Evdev Axis Inversion" atom fails to intern
(`XInternAtom` returns `None`) while every other name resolves. -/
def envInvFails : XEnv :=
  ⟨fun s => if s == "Evdev Axis Inversion" then 0 else 7, fun _ => none⟩

/-- C1 (counterexample): at this concrete input the swap and calibration
sub-steps succeed, the inversion sub-step fails, yet `apply` returns
true — so the returned boolean is not the logical AND of the success of
every sub-step performed, refuting the claim as stated. -/
theorem c1_counterexample :
    (apply envInvFails ⟨⟨0, 4095⟩, ⟨0, 4095⟩, false⟩ ⟨⟨100, 3900⟩, ⟨50, 4000⟩, true⟩).2 = true ∧
    (set_swapxy envInvFails (boolToI true)).2 = true ∧
    (set_invert_xy envInvFails 0 0).2 = false ∧
    (set_calibration envInvFails ⟨⟨100, 3900⟩, ⟨50, 4000⟩, true⟩).2 = true ∧
    ¬((apply envInvFails ⟨⟨0, 4095⟩, ⟨0, 4095⟩, false⟩ ⟨⟨100, 3900⟩, ⟨50, 4000⟩, true⟩).2 =
        ((set_swapxy envInvFails (boolToI true)).2 &&
         ((set_invert_xy envInvFails 0 0).2 &&
          (set_calibration envInvFails ⟨⟨100, 3900⟩, ⟨50, 4000⟩, true⟩).2))) := by
  decide

/-- C2: for every environment and `(original, target)` pair, the write
attempts `apply` issues on the axes-swap property are exactly one write
of `target.swap_xy` when `original.swap_xy` differs from
`target.swap_xy`, and none otherwise. -/
theorem c2_swap_write_iff (env : XEnv) (old_axys new_axys : XYinfo) :
    ((apply env old_axys new_axys).1).filter (isCallTo ("Evdev Axes Swap")) =
      (if old_axys.swap_xy != new_axys.swap_xy
       then [XEvent.setIntPropCall ("Evdev Axes Swap") 8 [boolToI new_axys.swap_xy]]
       else []) := by
  rw [apply_filter (isCallTo ("Evdev Axes Swap")) rfl]
  unfold set_swapxy set_invert_xy set_calibration
  rw [doSet_filter_isCallTo, doSet_filter_isCallTo, doSet_filter_isCallTo]
  cases h : old_axys.swap_xy != new_axys.swap_xy <;> simp [h]

/-- C3: for every environment and `(original, target)` pair, `apply`
unconditionally attempts the inversion-property write with
`(false, false)` and then the axis-calibration write with
`(target.x.min, target.x.max, target.y.min, target.y.max)`, in that
order after the conditional swap write, and its last action is the
connection flush (`XSync`). -/
theorem c3_inversion_and_calibration_unconditional (env : XEnv) (old_axys new_axys : XYinfo) :
    ((apply env old_axys new_axys).1).filter isSetCall =
      (if old_axys.swap_xy != new_axys.swap_xy
       then [XEvent.setIntPropCall ("Evdev Axes Swap") 8 [boolToI new_axys.swap_xy]]
       else []) ++
      [XEvent.setIntPropCall ("Evdev Axis Inversion") 8 [0, 0],
       XEvent.setIntPropCall ("Evdev Axis Calibration") 32
         [new_axys.x.min, new_axys.x.max, new_axys.y.min, new_axys.y.max]] ∧
    ((apply env old_axys new_axys).1).getLast? = some XEvent.sync :=
  ⟨apply_filter_setCalls env old_axys new_axys, apply_getLast_sync env old_axys new_axys⟩

lemma findLoop_map (f : XDeviceInfoRec → XDeviceInfoRec) (p q : XDeviceInfoRec → Bool)
    (hpq : ∀ d, q (f d) = p d) :
    ∀ (l : List XDeviceInfoRec) (acc : Option XDeviceInfoRec),
      findLoop q (l.map f) (acc.map f) = FindResult.mapDev f (findLoop p l acc)
  | [], none => rfl
  | [], some _ => rfl
  | d :: rest, acc => by
    rw [List.map_cons]
    unfold findLoop
    rw [hpq d]
    cases h : p d with
    | false =>
      simp only [Bool.false_eq_true, if_false]
      exact findLoop_map f p q hpq rest acc
    | true =>
      cases acc with
      | none =>
        simp only [if_true, Option.map_none']
        exact findLoop_map f p q hpq rest (some d)
      | some a => rfl

lemma findLoop_found_pred (p : XDeviceInfoRec → Bool) :
    ∀ (l : List XDeviceInfoRec) (acc : Option XDeviceInfoRec),
      (∀ a, acc = some a → p a = true) →
      ∀ d, findLoop p l acc = FindResult.found d → p d = true
  | [], none, _, d => by intro h; exact absurd h (by simp [findLoop])
  | [], some a, hacc, d => by
    intro h
    have : a = d := by
      have := h
      unfold findLoop at this
      cases this
      rfl
    exact this ▸ hacc a rfl
  | x :: rest, acc, hacc, d => by
    intro h
    unfold findLoop at h
    by_cases hx : p x = true
    · rw [if_pos hx] at h
      cases acc with
      | some a => exact absurd h (by simp)
      | none =>
        exact findLoop_found_pred p rest (some x) (fun a ha => by cases ha; exact hx) d h
    · rw [if_neg (by simpa using hx)] at h
      exact findLoop_found_pred p rest acc hacc d h

lemma findLoop_ambiguous_some (p : XDeviceInfoRec → Bool) :
    ∀ (l : List XDeviceInfoRec) (a : XDeviceInfoRec),
      1 ≤ l.countP p → findLoop p l (some a) = FindResult.ambiguous
  | [], a => by
    intro h
    rw [List.countP_nil] at h
    exact absurd h (by decide)
  | x :: rest, a => by
    intro h
    unfold findLoop
    by_cases hx : p x = true
    · rw [if_pos hx]
    · rw [if_neg (by simpa using hx)]
      refine findLoop_ambiguous_some p rest a ?_
      rwa [List.countP_cons, if_neg (by simpa using hx), Nat.add_zero] at h

lemma findLoop_ambiguous_two (p : XDeviceInfoRec → Bool) :
    ∀ (l : List XDeviceInfoRec),
      2 ≤ l.countP p → findLoop p l none = FindResult.ambiguous
  | [] => by
    intro h
    rw [List.countP_nil] at h
    exact absurd h (by decide)
  | x :: rest => by
    intro h
    unfold findLoop
    by_cases hx : p x = true
    · rw [if_pos hx]
      refine findLoop_ambiguous_some p rest x ?_
      rw [List.countP_cons, if_pos hx] at h
      omega
    · rw [if_neg (by simpa using hx)]
      refine findLoop_ambiguous_two p rest ?_
      rwa [List.countP_cons, if_neg (by simpa using hx), Nat.add_zero] at h

lemma findLoop_no_match (p : XDeviceInfoRec → Bool) :
    ∀ (l : List XDeviceInfoRec) (acc : Option XDeviceInfoRec),
      l.countP p = 0 →
      findLoop p l acc = (match acc with
                          | some d => FindResult.found d
                          | none => FindResult.notFound)
  | [], none, _ => rfl
  | [], some _, _ => rfl
  | x :: rest, acc, h => by
    unfold findLoop
    have hx : p x = false := by
      rw [List.countP_cons] at h
      by_cases hpx : p x = true
      · rw [if_pos hpx] at h; omega
      · simpa using hpx
    rw [if_neg (by simp [hx])]
    refine findLoop_no_match p rest acc ?_
    rw [List.countP_cons, hx] at h
    simpa using h

/-- Exact-name match predicate (what the scan reduces to for a non-digit
name with `only_extended == False`). -/
def nameIs (nm : String) (d : XDeviceInfoRec) : Bool :=
  d.name == nm

lemma deviceMatches_numeric_ignores_name (oe : Bool) (id : Nat) (name : String)
    (f : XDeviceInfoRec → XDeviceInfoRec)
    (hid : ∀ d, (f d).id = d.id) (huse : ∀ d, (f d).use = d.use) (d : XDeviceInfoRec) :
    deviceMatches oe true id name (f d) = deviceMatches oe true id name d := by
  simp [deviceMatches, hid, huse]

lemma deviceMatches_text_ignores_id (oe : Bool) (id : Nat) (name : String)
    (f : XDeviceInfoRec → XDeviceInfoRec)
    (hname : ∀ d, (f d).name = d.name) (huse : ∀ d, (f d).use = d.use) (d : XDeviceInfoRec) :
    deviceMatches oe false id name (f d) = deviceMatches oe false id name d := by
  simp [deviceMatches, hname, huse]

lemma deviceMatches_plain (id : Nat) (name : String) :
    deviceMatches false false id name = nameIs name := by
  funext d
  simp [deviceMatches, nameIs]

lemma find_ambiguous_of_dup (devices : List XDeviceInfoRec) (name : String)
    (h1 : allDigits name = false) (h2 : 2 ≤ devices.countP (nameIs name)) :
    xinput_find_device_info devices name false = FindResult.ambiguous := by
  unfold xinput_find_device_info
  rw [h1]
  simp only [Bool.false_eq_true, if_false]
  rw [deviceMatches_plain]
  exact findLoop_ambiguous_two (nameIs name) devices h2

lemma find_notFound_of_no_match (devices : List XDeviceInfoRec) (name : String)
    (h1 : allDigits name = false) (h2 : devices.countP (nameIs name) = 0) :
    xinput_find_device_info devices name false = FindResult.notFound := by
  unfold xinput_find_device_info
  rw [h1]
  simp only [Bool.false_eq_true, if_false]
  rw [deviceMatches_plain]
  exact findLoop_no_match (nameIs name) devices none h2

/-- C5: (i) an all-digit identity is matched numerically and never by
text: the resolution result is invariant under arbitrary renaming of
every device (id and use kept); (ii) a non-digit identity can only
resolve to a device whose name is exactly the identity; (iii) dually,
for a non-digit identity the result is invariant under renumbering of
device ids; (iv) a non-digit identity matched by two or more devices
resolves to the `ambiguous` outcome (the early NULL return with the
multiple-devices warning), which is a different outcome from (v) the
zero-match `notFound`; and (vi) on such an ambiguous identity the
constructor opens no device handle and fails. -/
theorem c5_device_resolution :
    (∀ (devices : List XDeviceInfoRec) (name : String) (oe : Bool)
       (f : XDeviceInfoRec → XDeviceInfoRec),
       allDigits name = true → (∀ d, (f d).id = d.id) → (∀ d, (f d).use = d.use) →
       xinput_find_device_info (devices.map f) name oe =
         FindResult.mapDev f (xinput_find_device_info devices name oe)) ∧
    (∀ (devices : List XDeviceInfoRec) (name : String) (oe : Bool) (d : XDeviceInfoRec),
       allDigits name = false →
       xinput_find_device_info devices name oe = FindResult.found d → d.name = name) ∧
    (∀ (devices : List XDeviceInfoRec) (name : String) (oe : Bool)
       (f : XDeviceInfoRec → XDeviceInfoRec),
       allDigits name = false → (∀ d, (f d).name = d.name) → (∀ d, (f d).use = d.use) →
       xinput_find_device_info (devices.map f) name oe =
         FindResult.mapDev f (xinput_find_device_info devices name oe)) ∧
    (∀ (devices : List XDeviceInfoRec) (name : String),
       allDigits name = false → 2 ≤ devices.countP (nameIs name) →
       xinput_find_device_info devices name false = FindResult.ambiguous) ∧
    (∀ (devices : List XDeviceInfoRec) (name : String),
       allDigits name = false → devices.countP (nameIs name) = 0 →
       xinput_find_device_info devices name false = FindResult.notFound) ∧
    (∀ (env : CtorEnv) (name : String),
       allDigits name = false → 2 ≤ env.devices.countP (nameIs name) →
       CtorEvent.openDevice ∉ (ctorEvdev env name none).1 ∧
         (ctorEvdev env name none).2 = false) := by
  refine ⟨?_, ?_, ?_, find_ambiguous_of_dup, find_notFound_of_no_match, ?_⟩
  · intro devices name oe f h hid huse
    unfold xinput_find_device_info
    rw [h]
    simpa using findLoop_map f (deviceMatches oe true (atoi name) name)
      (deviceMatches oe true (atoi name) name)
      (deviceMatches_numeric_ignores_name oe (atoi name) name f hid huse) devices none
  · intro devices name oe d h hfind
    unfold xinput_find_device_info at hfind
    rw [h] at hfind
    simp only [Bool.false_eq_true, if_false] at hfind
    have hp := findLoop_found_pred (deviceMatches oe false 18446744073709551615 name)
      devices none (by intro a ha; cases ha) d hfind
    simp [deviceMatches] at hp
    exact hp.2
  · intro devices name oe f h hname huse
    unfold xinput_find_device_info
    rw [h]
    simpa using findLoop_map f (deviceMatches oe false 18446744073709551615 name)
      (deviceMatches oe false 18446744073709551615 name)
      (deviceMatches_text_ignores_id oe 18446744073709551615 name f hname huse) devices none
  · intro env name h1 h2
    have hf := find_ambiguous_of_dup env.devices name h1 h2
    unfold ctorEvdev
    cases hdisp : env.displayOpens with
    | false => simp
    | true =>
      rw [hf]
      simp

/-- Device records for concrete instantiations. -/
def devA : XDeviceInfoRec := ⟨3, "touch", 2⟩

/-- Second device sharing the name of `devA`. -/
def devB : XDeviceInfoRec := ⟨7, "touch", 2⟩

/-- A third, uniquely named device. -/
def devC : XDeviceInfoRec := ⟨9, "pad", 2⟩

/-- A renaming of every device (ids and use kept). -/
def renameW (d : XDeviceInfoRec) : XDeviceInfoRec :=
  { d with name := "zz" }

/-- A renumbering of every device (names and use kept). -/
def renumberW (d : XDeviceInfoRec) : XDeviceInfoRec :=
  { d with id := d.id + 100 }

/-- C5 (witness): the resolution facts at concrete inputs — numeric
identity "7" unaffected by renaming, "pad" resolved by exact name and
unaffected by renumbering, duplicate "touch" ambiguous and distinct from
the zero-match case, and the constructor opening no device on the
ambiguous name. -/
theorem c5_device_resolution_witness :
    xinput_find_device_info (List.map renameW [devA, devC]) ("7") false =
      FindResult.mapDev renameW (xinput_find_device_info [devA, devC] ("7") false) ∧
    devC.name = "pad" ∧
    xinput_find_device_info (List.map renumberW [devA, devC]) ("pad") false =
      FindResult.mapDev renumberW (xinput_find_device_info [devA, devC] ("pad") false) ∧
    xinput_find_device_info [devA, devB] ("touch") false = FindResult.ambiguous ∧
    xinput_find_device_info [devA, devB] ("mouse") false = FindResult.notFound ∧
    CtorEvent.openDevice ∉ (ctorEvdev ⟨true, [devA, devB], true, true⟩ ("touch") none).1 ∧
    (ctorEvdev ⟨true, [devA, devB], true, true⟩ ("touch") none).2 = false := by
  refine ⟨?_, ?_, ?_, ?_, ?_, ?_, ?_⟩
  · exact c5_device_resolution.1 [devA, devC] ("7") false renameW (by decide)
      (fun d => rfl) (fun d => rfl)
  · exact c5_device_resolution.2.1 [devA, devC] ("pad") false devC (by decide) (by decide)
  · exact c5_device_resolution.2.2.1 [devA, devC] ("pad") false renumberW (by decide)
      (fun d => rfl) (fun d => rfl)
  · exact c5_device_resolution.2.2.2.1 [devA, devB] ("touch") (by decide) (by decide)
  · exact c5_device_resolution.2.2.2.2.1 [devA, devB] ("mouse") (by decide) (by decide)
  · exact (c5_device_resolution.2.2.2.2.2 ⟨true, [devA, devB], true, true⟩ ("touch")
      (by decide) (by decide)).1
  · exact (c5_device_resolution.2.2.2.2.2 ⟨true, [devA, devB], true, true⟩ ("touch")
      (by decide) (by decide)).2

/-- Recognizes the throw event. -/
def isThrow : CtorEvent → Bool
  | CtorEvent.throwErr _ => true
  | _ => false

/-- True when the trace's final event is a throw. -/
def endsWithThrow : List CtorEvent → Bool
  | [] => false
  | [e] => isThrow e
  | _ :: e :: rest => endsWithThrow (e :: rest)

/-- C9: on every failing exit path of the constructor the last event is
the surfaced error, and among the events before it an opened device
handle has been closed and an opened display connection has been closed
(resources released before the error is surfaced). -/
theorem c9_ctor_releases_on_failure (env : CtorEnv) (device_name : String)
    (device_id : Option Nat) (h : (ctorEvdev env device_name device_id).2 = false) :
    endsWithThrow (ctorEvdev env device_name device_id).1 = true ∧
    (CtorEvent.openDevice ∈ ((ctorEvdev env device_name device_id).1).dropLast →
      CtorEvent.closeDevice ∈ ((ctorEvdev env device_name device_id).1).dropLast) ∧
    (CtorEvent.openDisplay ∈ ((ctorEvdev env device_name device_id).1).dropLast →
      CtorEvent.closeDisplay ∈ ((ctorEvdev env device_name device_id).1).dropLast) := by
  unfold ctorEvdev at h ⊢
  cases hdisp : env.displayOpens with
  | false => simp [endsWithThrow, isThrow, List.dropLast]
  | true =>
    cases device_id with
    | some i =>
      cases hdev : env.deviceOpens with
      | false => simp [endsWithThrow, isThrow, List.dropLast]
      | true =>
        cases hcal : env.calibPropReads with
        | false => simp [endsWithThrow, isThrow, List.dropLast]
        | true => simp [hdisp, hdev, hcal] at h
    | none =>
      cases hfind : xinput_find_device_info env.devices device_name false with
      | found d =>
        cases hdev : env.deviceOpens with
        | false => simp [endsWithThrow, isThrow, List.dropLast]
        | true =>
          cases hcal : env.calibPropReads with
          | false => simp [endsWithThrow, isThrow, List.dropLast]
          | true => simp [hfind, hdisp, hdev, hcal] at h
      | ambiguous => simp [endsWithThrow, isThrow, List.dropLast]
      | notFound => simp [endsWithThrow, isThrow, List.dropLast]

/-- C9 (witness): the partial-construction failure — the device handle
opens but the axis-calibration property validation fails — releases the
handle and the connection before the error. -/
theorem c9_ctor_releases_on_failure_witness :
    endsWithThrow (ctorEvdev ⟨true, [devA], true, false⟩ ("touch") (some 3)).1 = true ∧
    (CtorEvent.openDevice ∈ ((ctorEvdev ⟨true, [devA], true, false⟩ ("touch") (some 3)).1).dropLast →
      CtorEvent.closeDevice ∈ ((ctorEvdev ⟨true, [devA], true, false⟩ ("touch") (some 3)).1).dropLast) ∧
    (CtorEvent.openDisplay ∈ ((ctorEvdev ⟨true, [devA], true, false⟩ ("touch") (some 3)).1).dropLast →
      CtorEvent.closeDisplay ∈ ((ctorEvdev ⟨true, [devA], true, false⟩ ("touch") (some 3)).1).dropLast) :=
  c9_ctor_releases_on_failure ⟨true, [devA], true, false⟩ ("touch") (some 3) (by decide)

/-- C7: when the axis-calibration read succeeds at 32-bit integer format
with zero items, the whole `detect_axys` trace is the single corrective
`set_calibration` call carrying the currently held value, the state
result is reached normally (the remaining two reads proceed on the
unchanged value, independently of the corrective write's outcome), and
the final value is stored as both current and original. -/
theorem c7_zero_item_corrective_write (env : XEnv) (rs : DetectReads) (old_axys : XYinfo)
    (r : PropReadData) (h1 : rs.calib = some r) (h2 : r.format = 32)
    (h3 : r.typ = XA_INTEGER) (h4 : r.nitems = 0) :
    ((detect_axys env rs old_axys).2.2).filter isSetCall =
      [XEvent.setIntPropCall ("Evdev Axis Calibration") 32
        [old_axys.x.min, old_axys.x.max, old_axys.y.min, old_axys.y.max]] ∧
    (detect_axys env rs old_axys).1 =
      detectInvStep rs.inv (detectSwapStep rs.swap old_axys) ∧
    (detect_axys env rs old_axys).2.1 = (detect_axys env rs old_axys).1 := by
  unfold detect_axys detectCalibStep
  rw [h1]
  dsimp only
  rw [if_pos (show r.format = 32 ∧ r.typ = XA_INTEGER from ⟨h2, h3⟩)]
  rw [if_pos h4]
  refine ⟨?_, rfl, rfl⟩
  unfold set_calibration
  rw [doSet_filter_isSetCall]

/-- Concrete environment in which every atom resolves. -/
def envW : XEnv := ⟨fun _ => 7, fun _ => none⟩

/-- Reads for the zero-item calibration case. -/
def rsW7 : DetectReads := ⟨some ⟨32, 19, 0, []⟩, none, none⟩

/-- A concrete held calibration value. -/
def oldW : XYinfo := ⟨⟨1, 2⟩, ⟨3, 4⟩, false⟩

/-- C7 (witness): the zero-item case at concrete inputs. -/
theorem c7_zero_item_corrective_write_witness :
    ((detect_axys envW rsW7 oldW).2.2).filter isSetCall =
      [XEvent.setIntPropCall ("Evdev Axis Calibration") 32 [1, 2, 3, 4]] ∧
    (detect_axys envW rsW7 oldW).1 =
      detectInvStep rsW7.inv (detectSwapStep rsW7.swap oldW) ∧
    (detect_axys envW rsW7 oldW).2.1 = (detect_axys envW rsW7 oldW).1 :=
  c7_zero_item_corrective_write envW rsW7 oldW ⟨32, 19, 0, []⟩ rfl rfl rfl rfl

/-- C8: after a successful two-item 8-bit axis-inversion read, each axis
whose flag is set has the min and max of its just-decoded range swapped
(relative to the state after the calibration and swap reads), the swap
flag is untouched by this step, and the resulting value is stored
identically as both the current (`old_axys`) and original (`orig_axys`)
value. -/
theorem c8_inversion_folded_into_range (env : XEnv) (rs : DetectReads) (old_axys : XYinfo)
    (r : PropReadData) (h1 : rs.inv = some r) (h2 : r.format = 8)
    (h3 : r.typ = XA_INTEGER) (h4 : r.nitems = 2) :
    ((detect_axys env rs old_axys).1).x =
      (if r.items.getD 0 0 != 0
       then AxisInfo.mk (detectSwapStep rs.swap (detectCalibStep env rs.calib old_axys).1).x.max
              (detectSwapStep rs.swap (detectCalibStep env rs.calib old_axys).1).x.min
       else (detectSwapStep rs.swap (detectCalibStep env rs.calib old_axys).1).x) ∧
    ((detect_axys env rs old_axys).1).y =
      (if r.items.getD 1 0 != 0
       then AxisInfo.mk (detectSwapStep rs.swap (detectCalibStep env rs.calib old_axys).1).y.max
              (detectSwapStep rs.swap (detectCalibStep env rs.calib old_axys).1).y.min
       else (detectSwapStep rs.swap (detectCalibStep env rs.calib old_axys).1).y) ∧
    ((detect_axys env rs old_axys).1).swap_xy =
      (detectSwapStep rs.swap (detectCalibStep env rs.calib old_axys).1).swap_xy ∧
    (detect_axys env rs old_axys).2.1 = (detect_axys env rs old_axys).1 := by
  unfold detect_axys detectInvStep
  rw [h1]
  dsimp only
  rw [if_pos (show r.format = 8 ∧ r.typ = XA_INTEGER ∧ r.nitems = 2 from ⟨h2, h3, h4⟩)]
  cases hx : (r.items.getD 0 0 != 0) <;> cases hy : (r.items.getD 1 0 != 0) <;>
    simp [hx, hy]

/-- Reads for the inversion case: invert_x set, invert_y clear. -/
def rsW8 : DetectReads := ⟨none, none, some ⟨8, 19, 2, [1, 0]⟩⟩

/-- C8 (witness): the inversion fold at concrete inputs. -/
theorem c8_inversion_folded_into_range_witness :
    ((detect_axys envW rsW8 oldW).1).x =
      (if (1 : Int) != 0
       then AxisInfo.mk (detectSwapStep rsW8.swap (detectCalibStep envW rsW8.calib oldW).1).x.max
              (detectSwapStep rsW8.swap (detectCalibStep envW rsW8.calib oldW).1).x.min
       else (detectSwapStep rsW8.swap (detectCalibStep envW rsW8.calib oldW).1).x) ∧
    ((detect_axys envW rsW8 oldW).1).y =
      (if (0 : Int) != 0
       then AxisInfo.mk (detectSwapStep rsW8.swap (detectCalibStep envW rsW8.calib oldW).1).y.max
              (detectSwapStep rsW8.swap (detectCalibStep envW rsW8.calib oldW).1).y.min
       else (detectSwapStep rsW8.swap (detectCalibStep envW rsW8.calib oldW).1).y) ∧
    ((detect_axys envW rsW8 oldW).1).swap_xy =
      (detectSwapStep rsW8.swap (detectCalibStep envW rsW8.calib oldW).1).swap_xy ∧
    (detect_axys envW rsW8 oldW).2.1 = (detect_axys envW rsW8 oldW).1 :=
  c8_inversion_folded_into_range envW rsW8 oldW ⟨8, 19, 2, [1, 0]⟩ rfl rfl rfl rfl

/-- C4: for every valid output type, `finish_data` is the `apply` step
followed by exactly one persistence strategy, its result is the AND of
the `apply` result and the persistence result, and — because this holds
for every environment, including those where `apply` failed — the
strategy always runs and its single emitted artifact carries exactly the
target values. -/
theorem c4_finish_applies_then_persists (env : XEnv) (fe : FinishEnv) (ot : OutputType)
    (device_name : String) (old_axys new_axys : XYinfo) (h : ot ≠ OutputType.invalid) :
    finish_data env fe ot device_name old_axys new_axys =
      ((apply env old_axys new_axys).1 ++ (persistStep fe ot device_name new_axys).1,
       (apply env old_axys new_axys).2 && (persistStep fe ot device_name new_axys).2) ∧
    (((persistStep fe ot device_name new_axys).1).filter isArtifact).length = 1 ∧
    ((persistStep fe ot device_name new_axys).1).all (artifactValsOk new_axys) = true := by
  cases ot with
  | invalid => exact absurd rfl h
  | auto =>
    cases hs : fe.hasXorgconfdSupport <;>
      simp [finish_data, persistStep, output_xorgconfd, output_xinput, hs,
        isArtifact, artifactValsOk]
  | xorgconfd =>
    simp [finish_data, persistStep, output_xorgconfd, isArtifact, artifactValsOk]
  | hal =>
    simp [finish_data, persistStep, output_hal, isArtifact, artifactValsOk]
  | xinput =>
    simp [finish_data, persistStep, output_xinput, isArtifact, artifactValsOk]

/-- Environment in which no atom resolves, so every property write of
`apply` fails. -/
def envAllFail : XEnv := ⟨fun _ => 0, fun _ => none⟩

/-- A concrete target calibration value. -/
def newW : XYinfo := ⟨⟨100, 3900⟩, ⟨50, 4000⟩, true⟩

/-- A concrete persistence environment without a sysfs name. -/
def feW : FinishEnv := ⟨false, none⟩

/-- C4 (witness): with every live write failing, `apply` returns false
yet the HAL persistence strategy still runs and emits its artifact with
the target values. -/
theorem c4_finish_applies_then_persists_witness :
    (apply envAllFail oldW newW).2 = false ∧
    (finish_data envAllFail feW OutputType.hal ("dev") oldW newW =
      ((apply envAllFail oldW newW).1 ++ (persistStep feW OutputType.hal ("dev") newW).1,
       (apply envAllFail oldW newW).2 && (persistStep feW OutputType.hal ("dev") newW).2) ∧
     (((persistStep feW OutputType.hal ("dev") newW).1).filter isArtifact).length = 1 ∧
     ((persistStep feW OutputType.hal ("dev") newW).1).all (artifactValsOk newW) = true) :=
  ⟨by decide,
   c4_finish_applies_then_persists envAllFail feW OutputType.hal ("dev") oldW newW
     (by decide)⟩

/-- C10: each persistence routine returns true for every input; with no
sysfs name the config and policy routines substitute the placeholder
into their artifact; and consequently, for every valid output type, the
overall result of `finish_data` equals the result of `apply` alone. -/
theorem c10_persist_strategies_always_succeed :
    (∀ (fe : FinishEnv) (new_axys : XYinfo), (output_xorgconfd fe new_axys).2 = true) ∧
    (∀ (fe : FinishEnv) (new_axys : XYinfo), (output_hal fe new_axys).2 = true) ∧
    (∀ (dn : String) (new_axys : XYinfo), (output_xinput dn new_axys).2 = true) ∧
    (∀ (hs : Bool) (new_axys : XYinfo),
       (output_xorgconfd ⟨hs, none⟩ new_axys).1 =
         [XEvent.artifact ("xorg.conf.d") placeholderName new_axys.x.min new_axys.x.max
            new_axys.y.min new_axys.y.max new_axys.swap_xy]) ∧
    (∀ (hs : Bool) (new_axys : XYinfo),
       (output_hal ⟨hs, none⟩ new_axys).1 =
         [XEvent.artifact ("hal") placeholderName new_axys.x.min new_axys.x.max
            new_axys.y.min new_axys.y.max new_axys.swap_xy]) ∧
    (∀ (env : XEnv) (fe : FinishEnv) (ot : OutputType) (dn : String)
       (old_axys new_axys : XYinfo), ot ≠ OutputType.invalid →
       (finish_data env fe ot dn old_axys new_axys).2 = (apply env old_axys new_axys).2) := by
  refine ⟨fun fe n => rfl, fun fe n => rfl, fun dn n => rfl, fun hs n => rfl,
    fun hs n => rfl, ?_⟩
  intro env fe ot dn o n h
  cases ot with
  | invalid => exact absurd rfl h
  | auto =>
    cases hs : fe.hasXorgconfdSupport <;>
      simp [finish_data, persistStep, output_xorgconfd, output_xinput, hs]
  | xorgconfd => simp [finish_data, persistStep, output_xorgconfd]
  | hal => simp [finish_data, persistStep, output_hal]
  | xinput => simp [finish_data, persistStep, output_xinput]

/-- C10 (witness): concrete instances of the always-true persistence
results and of finish equalling apply. -/
theorem c10_persist_strategies_always_succeed_witness :
    (output_xorgconfd feW newW).2 = true ∧
    (output_hal feW newW).2 = true ∧
    (output_xinput ("dev") newW).2 = true ∧
    (finish_data envW feW OutputType.auto ("dev") oldW newW).2 = (apply envW oldW newW).2 :=
  ⟨c10_persist_strategies_always_succeed.1 feW newW,
   c10_persist_strategies_always_succeed.2.1 feW newW,
   c10_persist_strategies_always_succeed.2.2.1 ("dev") newW,
   c10_persist_strategies_always_succeed.2.2.2.2.2 envW feW OutputType.auto ("dev") oldW newW
     (by decide)⟩

/-- C6: the claim's mutual-exclusion property fails on the code: the
`case 8:` arm of the fill-loop switch has no `break`, so a format-8 write
performs the 16-bit element stores as well.  At format 8 with values
`[1, 2]` the stores performed are byte 0, short 0, byte 1, short 1 (a
true 8-bit path would be byte 0, byte 1, as the 16-bit path is short 0,
short 1); with the single value `[300]` the fallthrough's 16-bit store
leaves buffer byte 1 equal to 1, which no byte store wrote. -/
theorem c6_eight_bit_fallthrough :
    fillStores 8 [1, 2] =
      some [StoreOp.byte 0 1, StoreOp.short 0 1, StoreOp.byte 1 2, StoreOp.short 1 2] ∧
    fillStores 16 [1, 2] = some [StoreOp.short 0 1, StoreOp.short 1 2] ∧
    (((fillStores 8 [300]).getD []).foldl applyStore zeroBuf) 1 = 1 := by
  refine ⟨rfl, rfl, ?_⟩
  decide
